import Mathlib

/-!
Verification of the implicit-surface CSG kernel (`app.js` and its earlier
iteration, here called `Part000`).

The geometric state is embedded over `ℝ`: `Vec3` mirrors `THREE.Vector3`
(including the `length() || 1` guard in `normalize`, under which the zero
vector normalizes to itself — the same result as real-division-by-zero in
Lean), `Mat3`/`Frame` mirror the composed rigid transform and its cached
inverse (`matrix.invert()` is the adjugate-over-determinant inverse, which
degenerates to the zero matrix for singular input, exactly as `THREE`'s
`invert` does), and the classifiers are direct transcriptions of
`isPointInsideSurface` / `isPointInsideShape` / `isPointInsideNode`.

The two source iterations differ in their edge finder and sampling
thresholds; both are embedded (`AppJs` and `Part000` namespaces).
-/

noncomputable section

open scoped Classical

/-- World-space vector, mirroring `THREE.Vector3`. -/
structure Vec3 where
  x : ℝ
  y : ℝ
  z : ℝ

def Vec3.add (a b : Vec3) : Vec3 := ⟨a.x + b.x, a.y + b.y, a.z + b.z⟩

def Vec3.sub (a b : Vec3) : Vec3 := ⟨a.x - b.x, a.y - b.y, a.z - b.z⟩

def Vec3.neg (a : Vec3) : Vec3 := ⟨-a.x, -a.y, -a.z⟩

instance : Add Vec3 := ⟨Vec3.add⟩

instance : Sub Vec3 := ⟨Vec3.sub⟩

instance : Neg Vec3 := ⟨Vec3.neg⟩

/-- `THREE.Vector3.multiplyScalar`. -/
def Vec3.multiplyScalar (v : Vec3) (c : ℝ) : Vec3 := ⟨c * v.x, c * v.y, c * v.z⟩

def Vec3.dot (a b : Vec3) : ℝ := a.x * b.x + a.y * b.y + a.z * b.z

/-- `THREE.Vector3.length`: the Euclidean norm. -/
def Vec3.length (v : Vec3) : ℝ := Real.sqrt (Vec3.dot v v)

/-- `THREE.Vector3.distanceTo`. -/
def Vec3.distanceTo (a b : Vec3) : ℝ := Vec3.length (Vec3.sub a b)

/-- `THREE.Vector3.setZ` (pure version of the in-place setter). -/
def Vec3.setZ (v : Vec3) (z : ℝ) : Vec3 := ⟨v.x, v.y, z⟩

/-- `THREE.Vector3.normalize`, that is `divideScalar(length() || 1)`:
the zero vector is divided by `1` and therefore stays zero. -/
def Vec3.normalize (v : Vec3) : Vec3 :=
  Vec3.multiplyScalar v (1 / (if Vec3.length v = 0 then 1 else Vec3.length v))

/-- `THREE.Vector3.setLength`: `normalize().multiplyScalar(length)`. -/
def Vec3.setLength (v : Vec3) (l : ℝ) : Vec3 := Vec3.multiplyScalar (Vec3.normalize v) l

/-- `THREE.Vector3.lerpVectors(v1, v2, alpha) = v1 + (v2 - v1) * alpha`. -/
def Vec3.lerpVectors (v1 v2 : Vec3) (alpha : ℝ) : Vec3 :=
  Vec3.add v1 (Vec3.multiplyScalar (Vec3.sub v2 v1) alpha)

/-- Rotation part of the composed `Matrix4` (unit scale, so the linear part
is exactly the quaternion's rotation matrix). -/
structure Mat3 where
  a : ℝ
  b : ℝ
  c : ℝ
  d : ℝ
  e : ℝ
  f : ℝ
  g : ℝ
  h : ℝ
  i : ℝ

def Mat3.mulVec (m : Mat3) (v : Vec3) : Vec3 :=
  ⟨m.a * v.x + m.b * v.y + m.c * v.z,
   m.d * v.x + m.e * v.y + m.f * v.z,
   m.g * v.x + m.h * v.y + m.i * v.z⟩

def Mat3.det (m : Mat3) : ℝ :=
  m.a * (m.e * m.i - m.f * m.h) - m.b * (m.d * m.i - m.f * m.g)
    + m.c * (m.d * m.h - m.e * m.g)

/-- Matrix inverse by adjugate over determinant, as `THREE.Matrix4.invert`
computes it; a singular matrix inverts to the zero matrix (division by the
zero determinant), matching `THREE`'s explicit `det == 0` fallback. -/
def Mat3.inv (m : Mat3) : Mat3 :=
  ⟨(m.e * m.i - m.f * m.h) / m.det, -(m.b * m.i - m.c * m.h) / m.det,
   (m.b * m.f - m.c * m.e) / m.det,
   -(m.d * m.i - m.f * m.g) / m.det, (m.a * m.i - m.c * m.g) / m.det,
   -(m.a * m.f - m.c * m.d) / m.det,
   (m.d * m.h - m.e * m.g) / m.det, -(m.a * m.h - m.b * m.g) / m.det,
   (m.a * m.e - m.b * m.d) / m.det⟩

def Mat3.idM : Mat3 := ⟨1, 0, 0, 0, 1, 0, 0, 0, 1⟩

/-- The rigid transform cached by the `Surface` constructor: the composed
matrix is `[R | t]` (position + quaternion rotation, unit scale). -/
structure Frame where
  R : Mat3
  t : Vec3

/-- `toWorld(local) = matrix * local`. -/
def Frame.toWorld (fr : Frame) (v : Vec3) : Vec3 := Vec3.add (fr.R.mulVec v) fr.t

/-- `toLocal(world) = invMatrix * world`; for the rigid `[R | t]` this is
`R⁻¹ (world - t)`. -/
def Frame.toLocal (fr : Frame) (v : Vec3) : Vec3 := (Mat3.inv fr.R).mulVec (Vec3.sub v fr.t)

/-- `rotateToWorld(normal) = normal.applyQuaternion(q)`, i.e. the rotation
part applied to the vector. -/
def Frame.rotateToWorld (fr : Frame) (n : Vec3) : Vec3 := fr.R.mulVec n

def Frame.idF : Frame := ⟨Mat3.idM, ⟨0, 0, 0⟩⟩

def OperationType.UNION : String := "union"

def OperationType.SUBTRACT : String := "subtract"

def OperationType.INTERSECT : String := "intersect"

/-- `EPSILON = 0.001`: the shared on-surface tolerance. -/
def EPSILON : ℝ := 1 / 1000

/-- `POINT_CLOUD_MAX_PROJECTION_DISTANCE = 0.3`. -/
def POINT_CLOUD_MAX_PROJECTION_DISTANCE : ℝ := 3 / 10

/-- `EDGE_SEARCH_MAX_ITERATIONS = 100`. -/
def EDGE_SEARCH_MAX_ITERATIONS : ℕ := 100

/-- `EDGE_SEARCH_EPSILON = EPSILON * 0.1` (present in the `Part000`
iteration only). -/
def EDGE_SEARCH_EPSILON : ℝ := EPSILON * (1 / 10)

/-- The three-valued point/surface relation (`OUTSIDE_SURFACE = 0`,
`ON_SURFACE = 1`, `INSIDE_SURFACE = 2` in the source). -/
inductive Cls where
  | OUTSIDE_SURFACE
  | ON_SURFACE
  | INSIDE_SURFACE
deriving DecidableEq

/-- The closed set of surface kinds (plane / cylinder / sphere from both
iterations, chamfer from `app.js`), each carrying its parameters and the
rigid frame built by the `Surface` base constructor. The display color is
omitted: it never enters any geometric computation. -/
inductive Surface where
  | plane (frame : Frame)
  | cylinder (radius : ℝ) (frame : Frame)
  | sphere (radius : ℝ) (frame : Frame)
  | chamfer (surface1 surface2 : Surface) (length : ℝ) (frame : Frame)

/-- `normalAt` of each surface kind. -/
def Surface.normalAt : Surface → Vec3 → Vec3
  | .plane fr, _ => fr.rotateToWorld ⟨0, 0, 1⟩
  | .cylinder _ fr, p => fr.rotateToWorld (Vec3.normalize (Vec3.setZ (fr.toLocal p) 0))
  | .sphere _ fr, p => fr.rotateToWorld (Vec3.normalize (fr.toLocal p))
  | .chamfer s1 s2 _ _, p =>
    Vec3.normalize (Vec3.add (Vec3.neg (Surface.normalAt s1 p)) (Surface.normalAt s2 p))

/-- The `ChamferSurface.normalAt` blend, as its own definition so that the
chamfer projection can refer to it. -/
def chamferNormal (s1 s2 : Surface) (p : Vec3) : Vec3 :=
  Vec3.normalize (Vec3.add (Vec3.neg (Surface.normalAt s1 p)) (Surface.normalAt s2 p))

/-- The `app.js` `findEdgePoint` loop body, generic in the two projection
functions (the chamfer projection instantiates it with its two parent
surfaces): project through surface 1 then surface 2, return the second
projection once the pair is within `EPSILON`, with remaining-iteration fuel
tracking the bounded `for` loop. -/
def findEdgeLoopAux (f g : Vec3 → Vec3) : ℕ → Vec3 → Option Vec3
  | 0, _ => none
  | n + 1, point =>
    let p2 := f point
    let p1 := g p2
    if Vec3.distanceTo p1 p2 < EPSILON then some p1
    else findEdgeLoopAux f g n p1

/-- `projectPoint` of each surface kind. The chamfer case runs the
`app.js` `findEdgePoint` on its two parent surfaces, returns the `(0,0,0)`
sentinel on failure, and otherwise projects the query point onto the
`THREE.Plane` through `edgePoint + length * edgeNormal` (whose
`projectPoint(p)` is `p - n * (n·p + w)` with `w = -n·planePoint`). -/
def Surface.projectPoint : Surface → Vec3 → Vec3
  | .plane fr, p => fr.toWorld (Vec3.setZ (fr.toLocal p) 0)
  | .cylinder r fr, p =>
    fr.toWorld (Vec3.setZ (Vec3.multiplyScalar (Vec3.normalize (Vec3.setZ (fr.toLocal p) 0)) r)
      (fr.toLocal p).z)
  | .sphere r fr, p => fr.toWorld (Vec3.setLength (fr.toLocal p) r)
  | .chamfer s1 s2 len _, p =>
    match findEdgeLoopAux (fun v => Surface.projectPoint s1 v)
        (fun v => Surface.projectPoint s2 v) EDGE_SEARCH_MAX_ITERATIONS p with
    | none => ⟨0, 0, 0⟩
    | some edgePoint =>
      let edgeNormal := chamferNormal s1 s2 edgePoint
      let planePoint := Vec3.add edgePoint (Vec3.multiplyScalar edgeNormal len)
      let w := -(Vec3.dot edgeNormal planePoint)
      Vec3.add p (Vec3.multiplyScalar edgeNormal (-(Vec3.dot edgeNormal p + w)))

namespace AppJs

/-- `app.js` `findEdgePoint(point, surface1, surface2)`. -/
def findEdgePoint (point : Vec3) (surface1 surface2 : Surface) : Option Vec3 :=
  findEdgeLoopAux (fun v => surface1.projectPoint v) (fun v => surface2.projectPoint v)
    EDGE_SEARCH_MAX_ITERATIONS point

/-- One refinement step of the `app.js` edge iteration: the current point
is replaced by `surface2.projectPoint(surface1.projectPoint(point))`. -/
def step (surface1 surface2 : Surface) (point : Vec3) : Vec3 :=
  surface2.projectPoint (surface1.projectPoint point)

end AppJs

namespace Part000

/-- The `Part000` `findEdgePoint` loop body: project the current estimate
onto both surfaces, move to the midpoint (`lerpVectors(p1, p2, 0.5)`), and
return the midpoint once the two projections are within
`EDGE_SEARCH_EPSILON`. -/
def lerpLoopAux (f g : Vec3 → Vec3) : ℕ → Vec3 → Option Vec3
  | 0, _ => none
  | n + 1, closestPoint =>
    let p1 := f closestPoint
    let p2 := g closestPoint
    let next := Vec3.lerpVectors p1 p2 (1 / 2)
    if Vec3.distanceTo p1 p2 < EDGE_SEARCH_EPSILON then some next
    else lerpLoopAux f g n next

/-- `Part000` `findEdgePoint(point, surface1, surface2)`. -/
def findEdgePoint (point : Vec3) (surface1 surface2 : Surface) : Option Vec3 :=
  lerpLoopAux (fun v => surface1.projectPoint v) (fun v => surface2.projectPoint v)
    EDGE_SEARCH_MAX_ITERATIONS point

/-- One refinement step of the `Part000` edge iteration. -/
def step (surface1 surface2 : Surface) (point : Vec3) : Vec3 :=
  Vec3.lerpVectors (surface1.projectPoint point) (surface2.projectPoint point) (1 / 2)

end Part000

/-- Return value of `projectPoints`: per-surface accepted surface points
and per-surface discovered edge points. -/
structure ProjectPointsResult where
  surfacePoints : List (List Vec3)
  edgePoints : List (List Vec3)

namespace AppJs

/-- `app.js` `projectPoints(points, surfaces)`: a point is accepted by a
surface when its projection distance is within
`POINT_CLOUD_MAX_PROJECTION_DISTANCE`; for an accepted point, every
*other* surface within the same threshold spawns a `findEdgePoint` call
whose non-null results are collected per (first) surface. -/
def projectPoints (points : List Vec3) (surfaces : List Surface) : ProjectPointsResult :=
  { surfacePoints := surfaces.map (fun surface =>
      points.flatMap (fun point =>
        if Vec3.distanceTo point (surface.projectPoint point)
            ≤ POINT_CLOUD_MAX_PROJECTION_DISTANCE then
          [surface.projectPoint point]
        else []))
    edgePoints := surfaces.enum.map (fun is =>
      points.flatMap (fun point =>
        if Vec3.distanceTo point (is.2.projectPoint point)
            ≤ POINT_CLOUD_MAX_PROJECTION_DISTANCE then
          surfaces.enum.flatMap (fun js =>
            if js.1 ≠ is.1 then
              if Vec3.distanceTo point (js.2.projectPoint point)
                  ≤ POINT_CLOUD_MAX_PROJECTION_DISTANCE then
                (findEdgePoint point is.2 js.2).toList
              else []
            else [])
        else [])) }

end AppJs

namespace Part000

/-- `Part000` `projectPoints(points, surfaces)`: same shape as the
`app.js` one, except that the partner surface of an edge candidate is
accepted under the looser threshold
`POINT_CLOUD_MAX_PROJECTION_DISTANCE * 5`. -/
def projectPoints (points : List Vec3) (surfaces : List Surface) : ProjectPointsResult :=
  { surfacePoints := surfaces.map (fun surface =>
      points.flatMap (fun point =>
        if Vec3.distanceTo point (surface.projectPoint point)
            ≤ POINT_CLOUD_MAX_PROJECTION_DISTANCE then
          [surface.projectPoint point]
        else []))
    edgePoints := surfaces.enum.map (fun is =>
      points.flatMap (fun point =>
        if Vec3.distanceTo point (is.2.projectPoint point)
            ≤ POINT_CLOUD_MAX_PROJECTION_DISTANCE then
          surfaces.enum.flatMap (fun js =>
            if js.1 ≠ is.1 then
              if Vec3.distanceTo point (js.2.projectPoint point)
                  ≤ POINT_CLOUD_MAX_PROJECTION_DISTANCE * 5 then
                (findEdgePoint point is.2 js.2).toList
              else []
            else [])
        else [])) }

end Part000

/-- `isPointInsideSurface(point, surface)`. -/
def isPointInsideSurface (point : Vec3) (surface : Surface) : Cls :=
  let closestPoint := surface.projectPoint point
  let d := Vec3.dot (Vec3.sub closestPoint point) (surface.normalAt closestPoint)
  if d > EPSILON then .INSIDE_SURFACE
  else if d < -EPSILON then .OUTSIDE_SURFACE
  else .ON_SURFACE

/-- The `for (const surface of shape)` loop of `isPointInsideShape`, with
the running `result` accumulator. -/
def shapeLoop (point : Vec3) (pointSurface : Surface) : List Surface → Cls → Cls
  | [], result => result
  | surface :: rest, result =>
    if surface = pointSurface then .ON_SURFACE
    else
      match isPointInsideSurface point surface with
      | .OUTSIDE_SURFACE => .OUTSIDE_SURFACE
      | .ON_SURFACE => shapeLoop point pointSurface rest .ON_SURFACE
      | .INSIDE_SURFACE => shapeLoop point pointSurface rest result

/-- `isPointInsideShape(point, pointSurface, shape)`: the loop starts with
`result = INSIDE_SURFACE`. -/
def isPointInsideShape (point : Vec3) (pointSurface : Surface) (shape : List Surface) : Cls :=
  shapeLoop point pointSurface shape .INSIDE_SURFACE

/-- The CSG tree: a leaf holds a shape (list of surfaces); an internal
node holds its operation string and two children (`isLeafNode` tests the
presence of the operation, which the sum type encodes structurally). -/
inductive CSGNode where
  | leaf (shape : List Surface)
  | node (operation : String) (left right : CSGNode)

/-- `isPointInsideNode(point, pointSurface, node)`: leaf delegates to the
shape classifier, an internal node combines the recursive child results by
the `switch (node.operation)`. -/
def isPointInsideNode (point : Vec3) (pointSurface : Surface) : CSGNode → Cls
  | .leaf shape => isPointInsideShape point pointSurface shape
  | .node operation left right =>
    let a := isPointInsideNode point pointSurface left
    let b := isPointInsideNode point pointSurface right
    if operation = OperationType.UNION then
      if a = .OUTSIDE_SURFACE ∧ b = .OUTSIDE_SURFACE then .OUTSIDE_SURFACE
      else if a = .INSIDE_SURFACE ∨ b = .INSIDE_SURFACE then .INSIDE_SURFACE
      else .ON_SURFACE
    else if operation = OperationType.SUBTRACT then
      if a = .INSIDE_SURFACE ∨ a = .ON_SURFACE then
        if b = .OUTSIDE_SURFACE then a
        else if b = .ON_SURFACE then .ON_SURFACE
        else .OUTSIDE_SURFACE
      else .OUTSIDE_SURFACE
    else if operation = OperationType.INTERSECT then
      if a = .OUTSIDE_SURFACE ∨ b = .OUTSIDE_SURFACE then .OUTSIDE_SURFACE
      else if a = .ON_SURFACE ∨ b = .ON_SURFACE then .ON_SURFACE
      else .INSIDE_SURFACE
    else .OUTSIDE_SURFACE

/-- Modelled from the spec, §4.5: the three truth tables, with the
defensive `Unknown operation → OUTSIDE` default. -/
def specCombine (operation : String) (a b : Cls) : Cls :=
  if operation = OperationType.UNION then
    if a = .OUTSIDE_SURFACE ∧ b = .OUTSIDE_SURFACE then .OUTSIDE_SURFACE
    else if a = .INSIDE_SURFACE ∨ b = .INSIDE_SURFACE then .INSIDE_SURFACE
    else .ON_SURFACE
  else if operation = OperationType.SUBTRACT then
    if a = .OUTSIDE_SURFACE then .OUTSIDE_SURFACE
    else if b = .OUTSIDE_SURFACE then a
    else if b = .ON_SURFACE then .ON_SURFACE
    else .OUTSIDE_SURFACE
  else if operation = OperationType.INTERSECT then
    if a = .OUTSIDE_SURFACE ∨ b = .OUTSIDE_SURFACE then .OUTSIDE_SURFACE
    else if a = .ON_SURFACE ∨ b = .ON_SURFACE then .ON_SURFACE
    else .INSIDE_SURFACE
  else .OUTSIDE_SURFACE

/-- Modelled from the spec, §4.3: the reference single-surface
classification (`closest`, signed `d`, the three `ε` comparisons). -/
def specClassifyAgainstSurface (point : Vec3) (surface : Surface) : Cls :=
  let closest := surface.projectPoint point
  let d := Vec3.dot (Vec3.sub closest point) (surface.normalAt closest)
  if d > EPSILON then .INSIDE_SURFACE
  else if d < -EPSILON then .OUTSIDE_SURFACE
  else .ON_SURFACE

/-- Modelled from the spec, §4.1: on edge-search success the chamfer
projects the query point onto the plane at distance `length` along the
blended normal from the edge point. -/
def specChamferProject (s1 s2 : Surface) (len : ℝ) (edgePoint p : Vec3) : Vec3 :=
  let n := chamferNormal s1 s2 edgePoint
  let planePoint := Vec3.add edgePoint (Vec3.multiplyScalar n len)
  Vec3.sub p (Vec3.multiplyScalar n (Vec3.dot n (Vec3.sub p planePoint)))

/-- The model's sphere: `new SphereSurface(modelSize, ...)` with the
default position and orientation, `modelSize = 8`. -/
def modelSize : ℝ := 8

def sphereModel : Surface := Surface.sphere modelSize Frame.idF

attribute [ext] Vec3

lemma Vec3.dot_self_nonneg (v : Vec3) : 0 ≤ Vec3.dot v v := by
  simp only [Vec3.dot]
  nlinarith [mul_self_nonneg v.x, mul_self_nonneg v.y, mul_self_nonneg v.z]

lemma Vec3.sub_self (a : Vec3) : Vec3.sub a a = ⟨0, 0, 0⟩ := by
  simp [Vec3.sub]

lemma Vec3.dot_zero_left (v : Vec3) : Vec3.dot ⟨0, 0, 0⟩ v = 0 := by
  simp [Vec3.dot]

lemma Vec3.add_sub_cancel (a b : Vec3) : Vec3.sub (Vec3.add a b) b = a := by
  simp [Vec3.sub, Vec3.add]

lemma Vec3.length_zero : Vec3.length ⟨0, 0, 0⟩ = 0 := by
  simp [Vec3.length, Vec3.dot]

lemma Vec3.distanceTo_lt_iff {c : ℝ} (hc : 0 < c) (a b : Vec3) :
    Vec3.distanceTo a b < c ↔ Vec3.dot (Vec3.sub a b) (Vec3.sub a b) < c ^ 2 := by
  rw [Vec3.distanceTo, Vec3.length, Real.sqrt_lt' hc]

lemma Vec3.distanceTo_le_iff {c : ℝ} (hc : 0 ≤ c) (a b : Vec3) :
    Vec3.distanceTo a b ≤ c ↔ Vec3.dot (Vec3.sub a b) (Vec3.sub a b) ≤ c ^ 2 := by
  rw [Vec3.distanceTo, Vec3.length, Real.sqrt_le_iff, and_iff_right hc]

lemma Vec3.le_distanceTo_iff {c : ℝ} (hc : 0 ≤ c) (a b : Vec3) :
    c ≤ Vec3.distanceTo a b ↔ c ^ 2 ≤ Vec3.dot (Vec3.sub a b) (Vec3.sub a b) := by
  rw [Vec3.distanceTo, Vec3.length, Real.le_sqrt hc (Vec3.dot_self_nonneg _)]

lemma Vec3.length_eq_zero_iff (v : Vec3) : Vec3.length v = 0 ↔ v = ⟨0, 0, 0⟩ := by
  constructor
  · intro h
    have h1 : Vec3.dot v v ≤ 0 := Real.sqrt_eq_zero'.mp h
    have h2 := Vec3.dot_self_nonneg v
    have h3 : Vec3.dot v v = 0 := le_antisymm h1 h2
    simp only [Vec3.dot] at h3
    have hx : v.x = 0 := by nlinarith [sq_nonneg v.x, sq_nonneg v.y, sq_nonneg v.z]
    have hy : v.y = 0 := by nlinarith [sq_nonneg v.x, sq_nonneg v.y, sq_nonneg v.z]
    have hz : v.z = 0 := by nlinarith [sq_nonneg v.x, sq_nonneg v.y, sq_nonneg v.z]
    ext <;> assumption
  · intro h
    subst h
    exact Vec3.length_zero

lemma Vec3.length_multiplyScalar (v : Vec3) (c : ℝ) :
    Vec3.length (Vec3.multiplyScalar v c) = |c| * Vec3.length v := by
  simp only [Vec3.length, Vec3.multiplyScalar, Vec3.dot]
  rw [show c * v.x * (c * v.x) + c * v.y * (c * v.y) + c * v.z * (c * v.z)
      = c ^ 2 * (v.x * v.x + v.y * v.y + v.z * v.z) by ring]
  rw [Real.sqrt_mul (sq_nonneg c), Real.sqrt_sq_eq_abs]

lemma Vec3.normalize_of_ne_zero {v : Vec3} (h : v ≠ ⟨0, 0, 0⟩) :
    Vec3.normalize v = Vec3.multiplyScalar v (1 / Vec3.length v) := by
  have : Vec3.length v ≠ 0 := fun hl => h ((Vec3.length_eq_zero_iff v).mp hl)
  simp [Vec3.normalize, this]

lemma Vec3.normalize_zero : Vec3.normalize ⟨0, 0, 0⟩ = ⟨0, 0, 0⟩ := by
  simp [Vec3.normalize, Vec3.multiplyScalar]

lemma Vec3.length_pos_of_ne_zero {v : Vec3} (h : v ≠ ⟨0, 0, 0⟩) : 0 < Vec3.length v := by
  rcases lt_or_eq_of_le (Real.sqrt_nonneg (Vec3.dot v v)) with h1 | h1
  · exact h1
  · exact absurd ((Vec3.length_eq_zero_iff v).mp h1.symm) h

lemma Vec3.length_normalize {v : Vec3} (h : v ≠ ⟨0, 0, 0⟩) :
    Vec3.length (Vec3.normalize v) = 1 := by
  have hp := Vec3.length_pos_of_ne_zero h
  rw [Vec3.normalize_of_ne_zero h, Vec3.length_multiplyScalar,
    abs_of_pos (by positivity : (0:ℝ) < 1 / Vec3.length v)]
  field_simp

lemma Mat3.inv_mulVec {m : Mat3} (h : m.det ≠ 0) (v : Vec3) :
    (Mat3.inv m).mulVec (m.mulVec v) = v := by
  have hd : m.a * (m.e * m.i - m.f * m.h) - m.b * (m.d * m.i - m.f * m.g)
      + m.c * (m.d * m.h - m.e * m.g) ≠ 0 := by
    simpa [Mat3.det] using h
  ext
  · show ((m.e * m.i - m.f * m.h) / m.det) * (m.a * v.x + m.b * v.y + m.c * v.z)
        + (-(m.b * m.i - m.c * m.h) / m.det) * (m.d * v.x + m.e * v.y + m.f * v.z)
        + ((m.b * m.f - m.c * m.e) / m.det) * (m.g * v.x + m.h * v.y + m.i * v.z) = v.x
    rw [Mat3.det]
    field_simp
    ring
  · show (-(m.d * m.i - m.f * m.g) / m.det) * (m.a * v.x + m.b * v.y + m.c * v.z)
        + ((m.a * m.i - m.c * m.g) / m.det) * (m.d * v.x + m.e * v.y + m.f * v.z)
        + (-(m.a * m.f - m.c * m.d) / m.det) * (m.g * v.x + m.h * v.y + m.i * v.z) = v.y
    rw [Mat3.det]
    field_simp
    ring
  · show ((m.d * m.h - m.e * m.g) / m.det) * (m.a * v.x + m.b * v.y + m.c * v.z)
        + (-(m.a * m.h - m.b * m.g) / m.det) * (m.d * v.x + m.e * v.y + m.f * v.z)
        + ((m.a * m.e - m.b * m.d) / m.det) * (m.g * v.x + m.h * v.y + m.i * v.z) = v.z
    rw [Mat3.det]
    field_simp
    ring

lemma Frame.toLocal_toWorld {fr : Frame} (h : fr.R.det ≠ 0) (v : Vec3) :
    fr.toLocal (fr.toWorld v) = v := by
  rw [Frame.toLocal, Frame.toWorld, Vec3.add_sub_cancel]
  exact Mat3.inv_mulVec h v

lemma findEdgeLoopAux_succ (f g : Vec3 → Vec3) (n : ℕ) (c : Vec3) :
    findEdgeLoopAux f g (n + 1) c =
      if Vec3.distanceTo (g (f c)) (f c) < EPSILON then some (g (f c))
      else findEdgeLoopAux f g n (g (f c)) := rfl

lemma findEdgeLoopAux_none_iff (f g : Vec3 → Vec3) (n : ℕ) (c : Vec3) :
    findEdgeLoopAux f g n c = none ↔
      ∀ i < n, ¬ Vec3.distanceTo (g (f ((fun v => g (f v))^[i] c)))
        (f ((fun v => g (f v))^[i] c)) < EPSILON := by
  induction n generalizing c with
  | zero => simp [findEdgeLoopAux]
  | succ n ih =>
    rw [findEdgeLoopAux_succ]
    by_cases hconv : Vec3.distanceTo (g (f c)) (f c) < EPSILON
    · simp only [hconv, if_true]
      constructor
      · intro h
        exact absurd h (by simp)
      · intro h
        exact absurd hconv (by simpa using h 0 (Nat.succ_pos n))
    · simp only [hconv, if_false]
      rw [ih]
      constructor
      · intro h i hi
        cases i with
        | zero => simpa using hconv
        | succ j =>
          rw [Function.iterate_succ_apply]
          exact h j (Nat.lt_of_succ_lt_succ hi)
      · intro h i hi
        have := h (i + 1) (Nat.succ_lt_succ hi)
        rwa [Function.iterate_succ_apply] at this

lemma findEdgeLoopAux_none_of_never (f g : Vec3 → Vec3) (n : ℕ) (c : Vec3)
    (h : ∀ v, ¬ Vec3.distanceTo (g (f v)) (f v) < EPSILON) :
    findEdgeLoopAux f g n c = none := by
  rw [findEdgeLoopAux_none_iff]
  intro i _
  exact h _

lemma lerpLoopAux_succ (f g : Vec3 → Vec3) (n : ℕ) (c : Vec3) :
    Part000.lerpLoopAux f g (n + 1) c =
      if Vec3.distanceTo (f c) (g c) < EDGE_SEARCH_EPSILON then
        some (Vec3.lerpVectors (f c) (g c) (1 / 2))
      else Part000.lerpLoopAux f g n (Vec3.lerpVectors (f c) (g c) (1 / 2)) := rfl

lemma lerpLoopAux_none_iff (f g : Vec3 → Vec3) (n : ℕ) (c : Vec3) :
    Part000.lerpLoopAux f g n c = none ↔
      ∀ i < n, ¬ Vec3.distanceTo (f ((fun v => Vec3.lerpVectors (f v) (g v) (1 / 2))^[i] c))
        (g ((fun v => Vec3.lerpVectors (f v) (g v) (1 / 2))^[i] c)) < EDGE_SEARCH_EPSILON := by
  induction n generalizing c with
  | zero => simp [Part000.lerpLoopAux]
  | succ n ih =>
    rw [lerpLoopAux_succ]
    by_cases hconv : Vec3.distanceTo (f c) (g c) < EDGE_SEARCH_EPSILON
    · simp only [hconv, if_true]
      constructor
      · intro h
        exact absurd h (by simp)
      · intro h
        exact absurd hconv (by simpa using h 0 (Nat.succ_pos n))
    · simp only [hconv, if_false]
      rw [ih]
      constructor
      · intro h i hi
        cases i with
        | zero => simpa using hconv
        | succ j =>
          rw [Function.iterate_succ_apply]
          exact h j (Nat.lt_of_succ_lt_succ hi)
      · intro h i hi
        have := h (i + 1) (Nat.succ_lt_succ hi)
        rwa [Function.iterate_succ_apply] at this

lemma lerpLoopAux_some_sound (f g : Vec3 → Vec3) (n : ℕ) (c q : Vec3)
    (h : Part000.lerpLoopAux f g n c = some q) :
    ∃ c', Vec3.distanceTo (f c') (g c') < EDGE_SEARCH_EPSILON ∧
      q = Vec3.lerpVectors (f c') (g c') (1 / 2) := by
  induction n generalizing c with
  | zero => simp [Part000.lerpLoopAux] at h
  | succ n ih =>
    rw [lerpLoopAux_succ] at h
    by_cases hconv : Vec3.distanceTo (f c) (g c) < EDGE_SEARCH_EPSILON
    · rw [if_pos hconv] at h
      exact ⟨c, hconv, (Option.some_inj.mp h).symm⟩
    · rw [if_neg hconv] at h
      exact ih _ h

/-- If a surface's projection fixes a point, that point classifies ON
(the signed distance is exactly zero). -/
lemma isPointInsideSurface_of_fixed {S : Surface} {q : Vec3}
    (h : S.projectPoint q = q) : isPointInsideSurface q S = Cls.ON_SURFACE := by
  rw [isPointInsideSurface]
  simp only [h, Vec3.sub_self, Vec3.dot_zero_left]
  rw [if_neg (by rw [EPSILON]; norm_num), if_neg (by rw [EPSILON]; norm_num)]

lemma projectPoint_plane_translate (t v : Vec3) :
    (Surface.plane ⟨Mat3.idM, t⟩).projectPoint v = ⟨v.x, v.y, t.z⟩ := by
  simp [Surface.projectPoint, Frame.toWorld, Frame.toLocal, Mat3.inv, Mat3.det, Mat3.idM,
    Mat3.mulVec, Vec3.sub, Vec3.add, Vec3.setZ]

lemma normalAt_plane_translate (t v : Vec3) :
    (Surface.plane ⟨Mat3.idM, t⟩).normalAt v = ⟨0, 0, 1⟩ := by
  simp [Surface.normalAt, Frame.rotateToWorld, Mat3.idM, Mat3.mulVec]

lemma isPointInsideSurface_plane_translate (t v : Vec3) :
    isPointInsideSurface v (Surface.plane ⟨Mat3.idM, t⟩) =
      if t.z - v.z > EPSILON then Cls.INSIDE_SURFACE
      else if t.z - v.z < -EPSILON then Cls.OUTSIDE_SURFACE
      else Cls.ON_SURFACE := by
  rw [isPointInsideSurface]
  simp only [projectPoint_plane_translate, normalAt_plane_translate, Vec3.sub, Vec3.dot]
  norm_num

/-- Shape classifier helper: if every surface strictly before the first
occurrence of the origin surface classifies non-OUTSIDE, the loop reaches
the origin surface and returns ON, whatever the accumulator is. -/
lemma shapeLoop_reaches_origin (point : Vec3) (pointSurface : Surface) (post : List Surface) :
    ∀ (pre : List Surface) (acc : Cls),
      (∀ T ∈ pre, isPointInsideSurface point T ≠ Cls.OUTSIDE_SURFACE) →
      shapeLoop point pointSurface (pre ++ pointSurface :: post) acc = Cls.ON_SURFACE := by
  intro pre
  induction pre with
  | nil =>
    intro acc _
    rw [List.nil_append, shapeLoop, if_pos rfl]
  | cons T rest ih =>
    intro acc h
    rw [List.cons_append, shapeLoop]
    by_cases hT : T = pointSurface
    · rw [if_pos hT]
    · rw [if_neg hT]
      have hTo : isPointInsideSurface point T ≠ Cls.OUTSIDE_SURFACE := h T (List.mem_cons_self T rest)
      have hrest : ∀ T' ∈ rest, isPointInsideSurface point T' ≠ Cls.OUTSIDE_SURFACE :=
        fun T' hT' => h T' (List.mem_cons_of_mem _ hT')
      cases hcls : isPointInsideSurface point T with
      | OUTSIDE_SURFACE => exact absurd hcls hTo
      | ON_SURFACE => exact ih _ hrest
      | INSIDE_SURFACE => exact ih _ hrest

/-- The origin plane `z = 0` with the identity frame. -/
def planeZ0 : Surface := Surface.plane Frame.idF

/-- The plane `z = 5`. -/
def planeZ5 : Surface := Surface.plane ⟨Mat3.idM, ⟨0, 0, 5⟩⟩

/-- Claim C10: classifying any point against a leaf shape with an empty
surface list returns INSIDE — the `result` accumulator's initial value
`INSIDE_SURFACE` is returned unchanged. -/
theorem C10_empty_shape_inside (point : Vec3) (pointSurface : Surface) :
    isPointInsideShape point pointSurface [] = Cls.INSIDE_SURFACE := rfl

/-- Claim C5: for every point and surface, the single-surface classifier
equals the spec's reference definition (`closest`, signed `d` against the
shared `EPSILON`, INSIDE / OUTSIDE / ON by the three comparisons). -/
theorem C5_surface_classifier_matches_spec (point : Vec3) (surface : Surface) :
    isPointInsideSurface point surface = specClassifyAgainstSurface point surface := rfl

/-- Claim C1: an internal CSG node combines its children's classifications
exactly by the spec §4.5 truth tables (all 27 cases across the three
operations), and any operation outside the closed set combines to
OUTSIDE. -/
theorem C1_csg_truth_tables (point : Vec3) (pointSurface : Surface)
    (operation : String) (left right : CSGNode) :
    isPointInsideNode point pointSurface (CSGNode.node operation left right) =
      specCombine operation (isPointInsideNode point pointSurface left)
        (isPointInsideNode point pointSurface right) := by
  simp only [isPointInsideNode]
  generalize isPointInsideNode point pointSurface left = a
  generalize isPointInsideNode point pointSurface right = b
  by_cases h1 : operation = OperationType.UNION
  · cases a <;> cases b <;> simp [specCombine, h1]
  · by_cases h2 : operation = OperationType.SUBTRACT
    · cases a <;> cases b <;> simp [specCombine, h1, h2]
    · by_cases h3 : operation = OperationType.INTERSECT
      · cases a <;> cases b <;> simp [specCombine, h1, h2, h3]
      · simp [specCombine, h1, h2, h3]

/-- Claim C2 counterexample: the origin surface `planeZ5` is a member of
the shape `[planeZ0, planeZ5]`, yet the point `(0,0,1)` classifies
OUTSIDE (not ON) against that shape, because the loop short-circuits on
the earlier surface `planeZ0` (against which `(0,0,1)` is OUTSIDE) before
ever reaching the member test for `planeZ5`. -/
theorem C2_counterexample :
    planeZ5 ∈ [planeZ0, planeZ5] ∧
      isPointInsideShape ⟨0, 0, 1⟩ planeZ5 [planeZ0, planeZ5] ≠ Cls.ON_SURFACE := by
  refine ⟨by simp, ?_⟩
  have hne : planeZ0 ≠ planeZ5 := by
    simp only [planeZ0, planeZ5, Frame.idF, Surface.plane.injEq, Frame.mk.injEq,
      Vec3.mk.injEq]
    norm_num
  have hcls : isPointInsideSurface ⟨0, 0, 1⟩ planeZ0 = Cls.OUTSIDE_SURFACE := by
    have : planeZ0 = Surface.plane ⟨Mat3.idM, ⟨0, 0, 0⟩⟩ := rfl
    rw [this, isPointInsideSurface_plane_translate]
    rw [if_neg (by rw [EPSILON]; norm_num), if_pos (by rw [EPSILON]; norm_num)]
  rw [isPointInsideShape, shapeLoop, if_neg hne, hcls]
  intro h
  exact Cls.noConfusion h

/-- Claim C2 amended: `classifyAgainstShape(P, S, shape)` returns ON
whenever S is a member of the shape, provided every surface strictly
before (the chosen occurrence of) S classifies non-OUTSIDE against P; an
earlier OUTSIDE surface short-circuits the whole shape to OUTSIDE before
the member test is reached. -/
theorem C2_amended (point : Vec3) (pointSurface : Surface) (pre post : List Surface)
    (h : ∀ T ∈ pre, isPointInsideSurface point T ≠ Cls.OUTSIDE_SURFACE) :
    isPointInsideShape point pointSurface (pre ++ pointSurface :: post) = Cls.ON_SURFACE := by
  rw [isPointInsideShape]
  exact shapeLoop_reaches_origin point pointSurface post pre Cls.INSIDE_SURFACE h

/-- Witness for the amended claim C2 at a concrete input: the shape
`[planeZ0]` whose only member is the origin surface classifies the origin
point ON. -/
theorem C2_amended_witness :
    isPointInsideShape ⟨0, 0, 0⟩ planeZ0 ([] ++ planeZ0 :: []) = Cls.ON_SURFACE :=
  C2_amended ⟨0, 0, 0⟩ planeZ0 [] [] (by simp)

/-- Claim C4: both edge finders are total with the fixed `100`-iteration
cap, and they return the failure value `none` exactly when no iterate
among the first 100 passes the convergence test — the cap is what stops
the loop, never unbounded iteration. -/
theorem C4_edge_finder_cap (point : Vec3) (surface1 surface2 : Surface) :
    (AppJs.findEdgePoint point surface1 surface2 = none ↔
      ∀ i < EDGE_SEARCH_MAX_ITERATIONS,
        ¬ Vec3.distanceTo
            (surface2.projectPoint (surface1.projectPoint
              ((AppJs.step surface1 surface2)^[i] point)))
            (surface1.projectPoint ((AppJs.step surface1 surface2)^[i] point))
          < EPSILON) ∧
    (Part000.findEdgePoint point surface1 surface2 = none ↔
      ∀ i < EDGE_SEARCH_MAX_ITERATIONS,
        ¬ Vec3.distanceTo
            (surface1.projectPoint ((Part000.step surface1 surface2)^[i] point))
            (surface2.projectPoint ((Part000.step surface1 surface2)^[i] point))
          < EDGE_SEARCH_EPSILON) := by
  constructor
  · rw [AppJs.findEdgePoint, findEdgeLoopAux_none_iff]
    exact Iff.rfl
  · rw [Part000.findEdgePoint, lerpLoopAux_none_iff]
    exact Iff.rfl

lemma projectPoint_planeZ0 (v : Vec3) : planeZ0.projectPoint v = ⟨v.x, v.y, 0⟩ := by
  rw [show planeZ0 = Surface.plane ⟨Mat3.idM, ⟨0, 0, 0⟩⟩ from rfl, projectPoint_plane_translate]

/-- The plane `z = 1/2000`: half the shared `EPSILON` above `planeZ0`, but
five times the `Part000` edge tolerance. -/
def planeZhalf : Surface := Surface.plane ⟨Mat3.idM, ⟨0, 0, 1 / 2000⟩⟩

lemma projectPoint_planeZhalf (v : Vec3) :
    planeZhalf.projectPoint v = ⟨v.x, v.y, 1 / 2000⟩ := by
  rw [show planeZhalf = Surface.plane ⟨Mat3.idM, ⟨0, 0, 1 / 2000⟩⟩ from rfl,
    projectPoint_plane_translate]

/-- Claim C6 counterexample: the `app.js` edge finder accepts on its very
first iteration a pair of projections at distance `1/2000` — below the
general `EPSILON = 1/1000` but *five times* the tighter
`EDGE_SEARCH_EPSILON = 1/10000` — so its convergence test uses the general
tolerance itself, not a strictly tighter one: the returned point is still
`1/2000 ≥ EDGE_SEARCH_EPSILON` away from its projection onto the partner
surface. -/
theorem C6_counterexample :
    AppJs.findEdgePoint ⟨0, 0, 0⟩ planeZ0 planeZhalf = some ⟨0, 0, 1 / 2000⟩ ∧
      EDGE_SEARCH_EPSILON ≤
        Vec3.distanceTo (⟨0, 0, 1 / 2000⟩ : Vec3)
          (planeZ0.projectPoint ⟨0, 0, 1 / 2000⟩) := by
  constructor
  · have h1 : planeZ0.projectPoint (⟨0, 0, 0⟩ : Vec3) = ⟨0, 0, 0⟩ := by
      rw [projectPoint_planeZ0]
    have h2 : planeZhalf.projectPoint (⟨0, 0, 0⟩ : Vec3) = ⟨0, 0, 1 / 2000⟩ := by
      rw [projectPoint_planeZhalf]
    rw [AppJs.findEdgePoint, show EDGE_SEARCH_MAX_ITERATIONS = 99 + 1 from rfl,
      findEdgeLoopAux_succ]
    simp only [h1, h2]
    rw [if_pos]
    rw [Vec3.distanceTo_lt_iff (by rw [EPSILON]; norm_num)]
    simp only [Vec3.sub, Vec3.dot, EPSILON]
    norm_num
  · rw [projectPoint_planeZ0]
    rw [Vec3.le_distanceTo_iff (by rw [EDGE_SEARCH_EPSILON, EPSILON]; norm_num)]
    simp only [Vec3.sub, Vec3.dot, EDGE_SEARCH_EPSILON, EPSILON]
    norm_num

/-- Claim C6 amended: the tighter-than-`EPSILON` convergence tolerance is
a `Part000` property: there `EDGE_SEARCH_EPSILON = EPSILON * 0.1 <
EPSILON`, and every point the `Part000` edge finder returns is the
midpoint of a projection pair within `EDGE_SEARCH_EPSILON`; the `app.js`
finder instead compares against `EPSILON` itself (see the
counterexample). -/
theorem C6_amended :
    EDGE_SEARCH_EPSILON < EPSILON ∧
      ∀ (point : Vec3) (surface1 surface2 : Surface) (q : Vec3),
        Part000.findEdgePoint point surface1 surface2 = some q →
        ∃ c, Vec3.distanceTo (surface1.projectPoint c) (surface2.projectPoint c)
            < EDGE_SEARCH_EPSILON ∧
          q = Vec3.lerpVectors (surface1.projectPoint c) (surface2.projectPoint c) (1 / 2) := by
  constructor
  · rw [EDGE_SEARCH_EPSILON, EPSILON]
    norm_num
  · intro point surface1 surface2 q h
    exact lerpLoopAux_some_sound _ _ _ _ _ h

/-- Witness for the amended claim C6 at a concrete input: the `Part000`
finder on two copies of `planeZ0` converges immediately to the origin,
and the theorem produces the promised within-tolerance projection pair. -/
theorem C6_amended_witness :
    Part000.findEdgePoint ⟨0, 0, 1 / 5⟩ planeZ0 planeZ0 = some ⟨0, 0, 0⟩ ∧
      ∃ c, Vec3.distanceTo (planeZ0.projectPoint c) (planeZ0.projectPoint c)
          < EDGE_SEARCH_EPSILON ∧
        (⟨0, 0, 0⟩ : Vec3) = Vec3.lerpVectors (planeZ0.projectPoint c)
          (planeZ0.projectPoint c) (1 / 2) := by
  have hfind : Part000.findEdgePoint ⟨0, 0, 1 / 5⟩ planeZ0 planeZ0 = some ⟨0, 0, 0⟩ := by
    have h1 : planeZ0.projectPoint (⟨0, 0, 1 / 5⟩ : Vec3) = ⟨0, 0, 0⟩ := by
      rw [projectPoint_planeZ0]
    rw [Part000.findEdgePoint, show EDGE_SEARCH_MAX_ITERATIONS = 99 + 1 from rfl,
      lerpLoopAux_succ]
    simp only [h1]
    rw [if_pos]
    · rw [show Vec3.lerpVectors ⟨0, 0, 0⟩ ⟨0, 0, 0⟩ (1 / 2) = (⟨0, 0, 0⟩ : Vec3) by
        simp [Vec3.lerpVectors, Vec3.add, Vec3.sub, Vec3.multiplyScalar]]
    · rw [Vec3.distanceTo_lt_iff (by rw [EDGE_SEARCH_EPSILON, EPSILON]; norm_num)]
      simp only [Vec3.sub, Vec3.dot, EDGE_SEARCH_EPSILON, EPSILON]
      norm_num
  exact ⟨hfind, C6_amended.2 _ _ _ _ hfind⟩

/-- The plane `z = 2`, parallel to `planeZ0` and too far for the edge
search ever to converge. -/
def planeZ2 : Surface := Surface.plane ⟨Mat3.idM, ⟨0, 0, 2⟩⟩

lemma projectPoint_planeZ2 (v : Vec3) : planeZ2.projectPoint v = ⟨v.x, v.y, 2⟩ := by
  rw [show planeZ2 = Surface.plane ⟨Mat3.idM, ⟨0, 0, 2⟩⟩ from rfl, projectPoint_plane_translate]

/-- Claim C9: for every query point, `ChamferSurface.projectPoint` is a
total function that returns the degenerate sentinel `(0,0,0)` whenever its
internal edge search between the two parent surfaces fails, and on
success returns the query point projected onto the plane at distance
`length` along the blended normal from the edge point (the spec-modelled
`specChamferProject`). -/
theorem C9_chamfer_sentinel (s1 s2 : Surface) (len : ℝ) (fr : Frame) (p : Vec3) :
    (AppJs.findEdgePoint p s1 s2 = none →
      (Surface.chamfer s1 s2 len fr).projectPoint p = ⟨0, 0, 0⟩) ∧
    (∀ e, AppJs.findEdgePoint p s1 s2 = some e →
      (Surface.chamfer s1 s2 len fr).projectPoint p = specChamferProject s1 s2 len e p) := by
  constructor
  · intro h
    rw [AppJs.findEdgePoint] at h
    simp only [Surface.projectPoint]
    rw [h]
  · intro e h
    rw [AppJs.findEdgePoint] at h
    simp only [Surface.projectPoint]
    rw [h]
    simp only [specChamferProject]
    ext <;>
      simp only [Vec3.add, Vec3.sub, Vec3.multiplyScalar, Vec3.dot] <;> ring

/-- Witness for claim C9 at concrete inputs: parallel planes make the edge
search fail and the chamfer projection return the sentinel; two copies of
the base plane make it succeed at the origin edge point, and the
projection then equals the spec formula. -/
theorem C9_chamfer_sentinel_witness :
    (Surface.chamfer planeZ0 planeZ2 1 Frame.idF).projectPoint ⟨4, 5, 6⟩ = ⟨0, 0, 0⟩ ∧
      (Surface.chamfer planeZ0 planeZ0 1 Frame.idF).projectPoint ⟨0, 0, 1 / 5⟩
        = specChamferProject planeZ0 planeZ0 1 ⟨0, 0, 0⟩ ⟨0, 0, 1 / 5⟩ := by
  have hnone : AppJs.findEdgePoint ⟨4, 5, 6⟩ planeZ0 planeZ2 = none := by
    rw [AppJs.findEdgePoint]
    apply findEdgeLoopAux_none_of_never
    intro v
    rw [projectPoint_planeZ0, projectPoint_planeZ2]
    rw [Vec3.distanceTo_lt_iff (by rw [EPSILON]; norm_num)]
    simp only [Vec3.sub, Vec3.dot, EPSILON]
    norm_num
  have hsome : AppJs.findEdgePoint ⟨0, 0, 1 / 5⟩ planeZ0 planeZ0 = some ⟨0, 0, 0⟩ := by
    have h1 : planeZ0.projectPoint (⟨0, 0, 1 / 5⟩ : Vec3) = ⟨0, 0, 0⟩ := by
      rw [projectPoint_planeZ0]
    have h2 : planeZ0.projectPoint (⟨0, 0, 0⟩ : Vec3) = ⟨0, 0, 0⟩ := by
      rw [projectPoint_planeZ0]
    rw [AppJs.findEdgePoint, show EDGE_SEARCH_MAX_ITERATIONS = 99 + 1 from rfl,
      findEdgeLoopAux_succ]
    simp only [h1, h2]
    rw [if_pos]
    rw [Vec3.distanceTo_lt_iff (by rw [EPSILON]; norm_num)]
    simp only [Vec3.sub, Vec3.dot, EPSILON]
    norm_num
  exact ⟨(C9_chamfer_sentinel planeZ0 planeZ2 1 Frame.idF ⟨4, 5, 6⟩).1 hnone,
    (C9_chamfer_sentinel planeZ0 planeZ0 1 Frame.idF ⟨0, 0, 1 / 5⟩).2 ⟨0, 0, 0⟩ hsome⟩

lemma Frame.toLocal_idF (v : Vec3) : Frame.idF.toLocal v = v := by
  simp [Frame.toLocal, Frame.idF, Mat3.inv, Mat3.det, Mat3.idM, Mat3.mulVec, Vec3.sub]

lemma Frame.toWorld_idF (v : Vec3) : Frame.idF.toWorld v = v := by
  simp [Frame.toWorld, Frame.idF, Mat3.idM, Mat3.mulVec, Vec3.add]

lemma Frame.rotateToWorld_idF (v : Vec3) : Frame.idF.rotateToWorld v = v := by
  simp [Frame.rotateToWorld, Frame.idF, Mat3.idM, Mat3.mulVec]

/-- Claim C8 counterexample: the point at the model sphere's center
classifies ON against the sphere, not INSIDE: `setLength` on the zero
local vector leaves it zero (the `length() || 1` normalize guard), so the
"closest point" *is* the center and the signed distance is exactly 0. -/
theorem C8_counterexample :
    isPointInsideSurface ⟨0, 0, 0⟩ sphereModel = Cls.ON_SURFACE ∧
      isPointInsideSurface ⟨0, 0, 0⟩ sphereModel ≠ Cls.INSIDE_SURFACE := by
  have hproj : sphereModel.projectPoint ⟨0, 0, 0⟩ = ⟨0, 0, 0⟩ := by
    simp only [sphereModel, Surface.projectPoint, Frame.toLocal_idF, Vec3.setLength,
      Vec3.normalize_zero, Vec3.multiplyScalar]
    rw [show Vec3.mk (modelSize * 0) (modelSize * 0) (modelSize * 0) = ⟨0, 0, 0⟩ by
      simp]
    exact Frame.toWorld_idF _
  have h := isPointInsideSurface_of_fixed hproj
  exact ⟨h, by rw [h]; intro hc; exact Cls.noConfusion hc⟩

/-- Claim C8 amended: for the model sphere (radius `modelSize = 8` at the
origin), the center classifies ON (degenerate zero-vector projection),
while a point at distance `10 * radius` along any unit direction
classifies OUTSIDE. -/
theorem C8_amended :
    isPointInsideSurface ⟨0, 0, 0⟩ sphereModel = Cls.ON_SURFACE ∧
      ∀ u : Vec3, Vec3.length u = 1 →
        isPointInsideSurface (Vec3.multiplyScalar u (10 * modelSize)) sphereModel
          = Cls.OUTSIDE_SURFACE := by
  refine ⟨C8_counterexample.1, ?_⟩
  intro u hu
  have hdot : Vec3.dot u u = 1 := by
    have h := Real.sq_sqrt (Vec3.dot_self_nonneg u)
    rw [show Real.sqrt (Vec3.dot u u) = Vec3.length u from rfl, hu] at h
    simpa using h.symm
  have hlenP : Vec3.length (Vec3.multiplyScalar u (10 * modelSize)) = 80 := by
    rw [Vec3.length_multiplyScalar, hu, modelSize]
    norm_num
  have hPne : Vec3.multiplyScalar u (10 * modelSize) ≠ ⟨0, 0, 0⟩ := by
    intro h
    rw [h, Vec3.length_zero] at hlenP
    norm_num at hlenP
  have hproj : sphereModel.projectPoint (Vec3.multiplyScalar u (10 * modelSize))
      = Vec3.multiplyScalar u 8 := by
    simp only [sphereModel, Surface.projectPoint, Frame.toLocal_idF, Vec3.setLength,
      Vec3.normalize_of_ne_zero hPne, hlenP]
    rw [Frame.toWorld_idF]
    ext <;> simp [Vec3.multiplyScalar, modelSize] <;> ring
  have hlen8 : Vec3.length (Vec3.multiplyScalar u 8) = 8 := by
    rw [Vec3.length_multiplyScalar, hu]
    norm_num
  have h8ne : Vec3.multiplyScalar u 8 ≠ ⟨0, 0, 0⟩ := by
    intro h
    rw [h, Vec3.length_zero] at hlen8
    norm_num at hlen8
  have hnormal : sphereModel.normalAt (Vec3.multiplyScalar u 8) = u := by
    simp only [sphereModel, Surface.normalAt, Frame.toLocal_idF, Frame.rotateToWorld_idF,
      Vec3.normalize_of_ne_zero h8ne, hlen8]
    ext <;> simp [Vec3.multiplyScalar]
  rw [isPointInsideSurface]
  simp only [hproj, hnormal]
  have hd : Vec3.dot (Vec3.sub (Vec3.multiplyScalar u 8)
      (Vec3.multiplyScalar u (10 * modelSize))) u = -72 := by
    rw [show Vec3.dot (Vec3.sub (Vec3.multiplyScalar u 8)
        (Vec3.multiplyScalar u (10 * modelSize))) u = -72 * Vec3.dot u u by
      simp only [Vec3.sub, Vec3.dot, Vec3.multiplyScalar, modelSize]
      ring]
    rw [hdot]
    norm_num
  rw [hd, if_neg (by rw [EPSILON]; norm_num), if_pos (by rw [EPSILON]; norm_num)]

/-- Witness for the amended claim C8 at a concrete direction: the unit
vector `(1,0,0)`. -/
theorem C8_amended_witness :
    Vec3.length ⟨1, 0, 0⟩ = 1 ∧
      isPointInsideSurface (Vec3.multiplyScalar ⟨1, 0, 0⟩ (10 * modelSize)) sphereModel
        = Cls.OUTSIDE_SURFACE := by
  have hu : Vec3.length ⟨1, 0, 0⟩ = 1 := by
    simp [Vec3.length, Vec3.dot]
  exact ⟨hu, C8_amended.2 ⟨1, 0, 0⟩ hu⟩

lemma Vec3.normalize_z {v : Vec3} (h : v.z = 0) : (Vec3.normalize v).z = 0 := by
  simp [Vec3.normalize, Vec3.multiplyScalar, h]

lemma Vec3.multiplyScalar_zero_vec (r : ℝ) :
    Vec3.multiplyScalar ⟨0, 0, 0⟩ r = ⟨0, 0, 0⟩ := by
  simp [Vec3.multiplyScalar]

/-- Rescaling an already-`r`-length vector to length `r` is the identity
(for nonnegative `r`, covering the zero-radius and zero-vector
degeneracies through the normalize guard). -/
lemma normalize_scale_cancel {u : Vec3} (hu : Vec3.length u = 1) {r : ℝ} (hr : 0 ≤ r) :
    Vec3.multiplyScalar (Vec3.normalize (Vec3.multiplyScalar u r)) r
      = Vec3.multiplyScalar u r := by
  rcases eq_or_lt_of_le hr with hr0 | hrpos
  · rw [← hr0]
    rw [show Vec3.multiplyScalar u 0 = ⟨0, 0, 0⟩ by simp [Vec3.multiplyScalar]]
    rw [Vec3.normalize_zero, Vec3.multiplyScalar_zero_vec]
  · have hlen : Vec3.length (Vec3.multiplyScalar u r) = r := by
      rw [Vec3.length_multiplyScalar, hu, abs_of_pos hrpos]
      ring
    have hne : Vec3.multiplyScalar u r ≠ ⟨0, 0, 0⟩ := by
      intro h
      rw [h, Vec3.length_zero] at hlen
      exact absurd hlen.symm (ne_of_gt hrpos)
    rw [Vec3.normalize_of_ne_zero hne, hlen]
    ext <;> simp [Vec3.multiplyScalar] <;> field_simp

lemma projectPoint_plane_idem {fr : Frame} (hdet : fr.R.det ≠ 0) (p : Vec3) :
    (Surface.plane fr).projectPoint ((Surface.plane fr).projectPoint p)
      = (Surface.plane fr).projectPoint p := by
  simp only [Surface.projectPoint]
  rw [Frame.toLocal_toWorld hdet]
  rfl

lemma projectPoint_cylinder_idem {r : ℝ} {fr : Frame} (hdet : fr.R.det ≠ 0) (hr : 0 ≤ r)
    (p : Vec3) :
    (Surface.cylinder r fr).projectPoint ((Surface.cylinder r fr).projectPoint p)
      = (Surface.cylinder r fr).projectPoint p := by
  simp only [Surface.projectPoint]
  rw [Frame.toLocal_toWorld hdet]
  set X := fr.toLocal p with hX
  set u := Vec3.normalize (Vec3.setZ X 0) with hu
  have huz : u.z = 0 := by
    rw [hu]
    exact Vec3.normalize_z rfl
  have h1 : Vec3.setZ (Vec3.setZ (Vec3.multiplyScalar u r) X.z) 0
      = Vec3.multiplyScalar u r := by
    ext <;> simp [Vec3.setZ, Vec3.multiplyScalar, huz]
  rw [h1]
  have h2 : Vec3.multiplyScalar (Vec3.normalize (Vec3.multiplyScalar u r)) r
      = Vec3.multiplyScalar u r := by
    by_cases ha : Vec3.setZ X 0 = ⟨0, 0, 0⟩
    · rw [hu, ha, Vec3.normalize_zero, Vec3.multiplyScalar_zero_vec, Vec3.normalize_zero,
        Vec3.multiplyScalar_zero_vec]
    · exact normalize_scale_cancel (by rw [hu]; exact Vec3.length_normalize ha) hr
  rw [h2]
  rfl

lemma projectPoint_sphere_idem {r : ℝ} {fr : Frame} (hdet : fr.R.det ≠ 0) (hr : 0 ≤ r)
    (p : Vec3) :
    (Surface.sphere r fr).projectPoint ((Surface.sphere r fr).projectPoint p)
      = (Surface.sphere r fr).projectPoint p := by
  simp only [Surface.projectPoint]
  rw [Frame.toLocal_toWorld hdet]
  set w := fr.toLocal p with hw
  rw [Vec3.setLength, Vec3.setLength]
  by_cases hwz : Vec3.normalize w = ⟨0, 0, 0⟩
  · rw [hwz, Vec3.multiplyScalar_zero_vec, Vec3.normalize_zero, Vec3.multiplyScalar_zero_vec]
  · have hwne : w ≠ ⟨0, 0, 0⟩ := by
      intro h
      rw [h] at hwz
      exact hwz Vec3.normalize_zero
    rw [normalize_scale_cancel (Vec3.length_normalize hwne) hr]

/-- The non-chamfer surfaces whose cached transform is invertible (always
true for the rigid transforms the constructors build) and whose radius is
nonnegative. -/
def PrimitiveOK : Surface → Prop
  | .plane fr => fr.R.det ≠ 0
  | .cylinder r fr => fr.R.det ≠ 0 ∧ 0 ≤ r
  | .sphere r fr => fr.R.det ≠ 0 ∧ 0 ≤ r
  | .chamfer _ _ _ _ => False

/-- Claim C3 amended: for every plane, cylinder, or sphere surface (with
its invertible rigid frame and nonnegative radius) and every point, the
projected point classifies ON against the surface: the projection is
idempotent, so the signed distance at the projected point is exactly 0.
For chamfer surfaces the property fails (see the counterexample). -/
theorem C3_amended (S : Surface) (p : Vec3) (h : PrimitiveOK S) :
    isPointInsideSurface (S.projectPoint p) S = Cls.ON_SURFACE := by
  apply isPointInsideSurface_of_fixed
  cases S with
  | plane fr => exact projectPoint_plane_idem h p
  | cylinder r fr => exact projectPoint_cylinder_idem h.1 h.2 p
  | sphere r fr => exact projectPoint_sphere_idem h.1 h.2 p
  | chamfer s1 s2 len fr => exact absurd h id

/-- Witness for the amended claim C3 at a concrete input: the identity
plane and the point `(3,5,7)`. -/
theorem C3_amended_witness :
    PrimitiveOK planeZ0 ∧
      isPointInsideSurface (planeZ0.projectPoint ⟨3, 5, 7⟩) planeZ0 = Cls.ON_SURFACE := by
  have h : PrimitiveOK planeZ0 := by
    show Frame.idF.R.det ≠ 0
    simp [Frame.idF, Mat3.det, Mat3.idM]
  exact ⟨h, C3_amended planeZ0 ⟨3, 5, 7⟩ h⟩

/-- Rotation by the 119-120-169 Pythagorean angle in the x-z plane: an
exactly-representable rigid orientation (`cos = 119/169`,
`sin = 120/169`). -/
def rotCE : Mat3 := ⟨119/169, 0, 120/169, 0, 1, 0, -120/169, 0, 119/169⟩

/-- A plane through the origin whose world normal is
`(120/169, 0, 119/169)`. -/
def planeCE2 : Surface := Surface.plane ⟨rotCE, ⟨0, 0, 0⟩⟩

/-- The chamfer between `planeZ0` and `planeCE2` with blend length
`2770671/1040000000 ≈ 2.664e-3`. -/
def chamferCE : Surface :=
  Surface.chamfer planeZ0 planeCE2 (2770671 / 1040000000) Frame.idF

/-- Query point for the chamfer counterexample. -/
def pCE : Vec3 := ⟨-56277 / 40000000, 0, 0⟩

/-- Edge point the search finds from `pCE`. -/
def eCE : Vec3 := ⟨-4715613 / 6760000000, 0, 118881 / 169000000⟩

/-- The chamfer projection of `pCE`. -/
def qCE : Vec3 := ⟨56277 / 40000000, 0, -18759 / 16000000⟩

/-- Edge point the search finds from `qCE` (the mirror image of `eCE`). -/
def eCE' : Vec3 := ⟨4715613 / 6760000000, 0, -118881 / 169000000⟩

lemma projectPoint_planeCE2 (v : Vec3) :
    planeCE2.projectPoint v =
      ⟨(14161 * v.x - 14280 * v.z) / 28561, v.y, (-14280 * v.x + 14400 * v.z) / 28561⟩ := by
  simp only [planeCE2, Surface.projectPoint, Frame.toLocal, Frame.toWorld, Mat3.inv,
    Mat3.det, Mat3.mulVec, Vec3.sub, Vec3.add, Vec3.setZ, rotCE]
  ext <;> norm_num <;> ring

lemma normalAt_planeCE2 (v : Vec3) :
    planeCE2.normalAt v = ⟨120 / 169, 0, 119 / 169⟩ := by
  simp only [planeCE2, Surface.normalAt, Frame.rotateToWorld, Mat3.mulVec, rotCE]
  ext <;> norm_num

lemma chamferNormal_CE (v : Vec3) :
    chamferNormal planeZ0 planeCE2 v = ⟨12 / 13, 0, -5 / 13⟩ := by
  rw [chamferNormal, show planeZ0.normalAt v = ⟨0, 0, 1⟩ from
    normalAt_plane_translate ⟨0, 0, 0⟩ v, normalAt_planeCE2]
  rw [show Vec3.add (Vec3.neg ⟨0, 0, 1⟩) ⟨120 / 169, 0, 119 / 169⟩
      = (⟨120 / 169, 0, -50 / 169⟩ : Vec3) by
    ext <;> norm_num [Vec3.add, Vec3.neg]]
  have hlen : Vec3.length ⟨120 / 169, 0, -50 / 169⟩ = 130 / 169 := by
    rw [Vec3.length, show Vec3.dot ⟨120 / 169, 0, -50 / 169⟩ ⟨120 / 169, 0, -50 / 169⟩
        = (130 / 169 : ℝ) ^ 2 by rw [Vec3.dot]; norm_num]
    exact Real.sqrt_sq (by norm_num)
  have hne : (⟨120 / 169, 0, -50 / 169⟩ : Vec3) ≠ ⟨0, 0, 0⟩ := by
    intro h
    rw [h, Vec3.length_zero] at hlen
    norm_num at hlen
  rw [Vec3.normalize_of_ne_zero hne, hlen]
  ext <;> simp [Vec3.multiplyScalar] <;> norm_num

lemma edge_search_from_pCE :
    AppJs.findEdgePoint pCE planeZ0 planeCE2 = some eCE := by
  have h1 : planeZ0.projectPoint pCE = pCE := by
    rw [projectPoint_planeZ0]
    ext <;> simp [pCE]
  have h2 : planeCE2.projectPoint pCE = eCE := by
    rw [projectPoint_planeCE2]
    ext <;> simp [pCE, eCE] <;> norm_num
  rw [AppJs.findEdgePoint, show EDGE_SEARCH_MAX_ITERATIONS = 99 + 1 from rfl,
    findEdgeLoopAux_succ]
  simp only [h1, h2]
  rw [if_pos]
  rw [Vec3.distanceTo_lt_iff (by rw [EPSILON]; norm_num)]
  simp only [Vec3.sub, Vec3.dot, EPSILON, eCE, pCE]
  norm_num

lemma edge_search_from_qCE :
    AppJs.findEdgePoint qCE planeZ0 planeCE2 = some eCE' := by
  have h1 : planeZ0.projectPoint qCE = ⟨56277 / 40000000, 0, 0⟩ := by
    rw [projectPoint_planeZ0]
    ext <;> simp [qCE]
  have h2 : planeCE2.projectPoint (⟨56277 / 40000000, 0, 0⟩ : Vec3) = eCE' := by
    rw [projectPoint_planeCE2]
    ext <;> simp [eCE'] <;> norm_num
  rw [AppJs.findEdgePoint, show EDGE_SEARCH_MAX_ITERATIONS = 99 + 1 from rfl,
    findEdgeLoopAux_succ]
  simp only [h1, h2]
  rw [if_pos]
  rw [Vec3.distanceTo_lt_iff (by rw [EPSILON]; norm_num)]
  simp only [Vec3.sub, Vec3.dot, EPSILON, eCE']
  norm_num

lemma chamferCE_project_pCE : chamferCE.projectPoint pCE = qCE := by
  have hedge := edge_search_from_pCE
  rw [AppJs.findEdgePoint] at hedge
  rw [chamferCE, Surface.projectPoint]
  rw [hedge]
  simp only [chamferNormal_CE]
  ext <;>
    simp only [qCE, pCE, eCE, Vec3.add, Vec3.sub, Vec3.neg, Vec3.multiplyScalar, Vec3.dot] <;>
    norm_num

lemma chamferCE_project_qCE :
    chamferCE.projectPoint qCE = ⟨20923389 / 6760000000, 0, -5072367 / 2704000000⟩ := by
  have hedge := edge_search_from_qCE
  rw [AppJs.findEdgePoint] at hedge
  rw [chamferCE, Surface.projectPoint]
  rw [hedge]
  simp only [chamferNormal_CE]
  ext <;>
    simp only [qCE, eCE', Vec3.add, Vec3.sub, Vec3.neg, Vec3.multiplyScalar, Vec3.dot] <;>
    norm_num

/-- Claim C3 counterexample: for the chamfer surface `chamferCE` and the
query point `pCE`, the chamfer-projected point classifies INSIDE — not
ON. The two runs of the internal edge search (one from `pCE`, one from
its chamfer projection `qCE`) stop at edge estimates on opposite sides of
the true intersection line, displacing the second chamfer plane by about
`1.83 * EPSILON` along the blend normal. -/
theorem C3_counterexample :
    isPointInsideSurface (chamferCE.projectPoint pCE) chamferCE = Cls.INSIDE_SURFACE ∧
      isPointInsideSurface (chamferCE.projectPoint pCE) chamferCE ≠ Cls.ON_SURFACE := by
  have hnormal : chamferCE.normalAt (⟨20923389 / 6760000000, 0, -5072367 / 2704000000⟩ : Vec3)
      = ⟨12 / 13, 0, -5 / 13⟩ := by
    rw [show chamferCE.normalAt (⟨20923389 / 6760000000, 0, -5072367 / 2704000000⟩ : Vec3)
        = chamferNormal planeZ0 planeCE2 ⟨20923389 / 6760000000, 0, -5072367 / 2704000000⟩
        from rfl]
    exact chamferNormal_CE _
  have hcls : isPointInsideSurface qCE chamferCE = Cls.INSIDE_SURFACE := by
    rw [isPointInsideSurface]
    simp only [chamferCE_project_qCE, hnormal]
    rw [if_pos]
    rw [show Vec3.dot (Vec3.sub ⟨20923389 / 6760000000, 0, -5072367 / 2704000000⟩ qCE)
        ⟨12 / 13, 0, -5 / 13⟩ = (118881 / 65000000 : ℝ) by
      simp only [qCE, Vec3.sub, Vec3.dot]
      norm_num]
    rw [EPSILON]
    norm_num
  rw [chamferCE_project_pCE]
  exact ⟨hcls, by rw [hcls]; intro h; exact Cls.noConfusion h⟩

/-- Rotation taking the local z-axis to the world x-axis. -/
def rotY90 : Mat3 := ⟨0, 0, 1, 0, 1, 0, -1, 0, 0⟩

/-- The plane `x = 1` (local z-axis rotated onto world x, positioned at
`(1,0,0)`). -/
def planeCx1 : Surface := Surface.plane ⟨rotY90, ⟨1, 0, 0⟩⟩

/-- Sampling point for the C7 counterexample. -/
def pC7 : Vec3 := ⟨0, 0, 1 / 5⟩

lemma projectPoint_planeCx1 (v : Vec3) : planeCx1.projectPoint v = ⟨1, v.y, v.z⟩ := by
  simp only [planeCx1, Surface.projectPoint, Frame.toLocal, Frame.toWorld, Mat3.inv,
    Mat3.det, Mat3.mulVec, Vec3.sub, Vec3.add, Vec3.setZ, rotY90]
  ext <;> norm_num

lemma edge_search_C7 : AppJs.findEdgePoint pC7 planeZ0 planeCx1 = some ⟨1, 0, 0⟩ := by
  have h1 : planeZ0.projectPoint pC7 = ⟨0, 0, 0⟩ := by
    rw [projectPoint_planeZ0]
    ext <;> simp [pC7]
  have h2 : planeCx1.projectPoint (⟨0, 0, 0⟩ : Vec3) = ⟨1, 0, 0⟩ := by
    rw [projectPoint_planeCx1]
  have h3 : planeZ0.projectPoint (⟨1, 0, 0⟩ : Vec3) = ⟨1, 0, 0⟩ := by
    rw [projectPoint_planeZ0]
  have h4 : planeCx1.projectPoint (⟨1, 0, 0⟩ : Vec3) = ⟨1, 0, 0⟩ := by
    rw [projectPoint_planeCx1]
  rw [AppJs.findEdgePoint, show EDGE_SEARCH_MAX_ITERATIONS = 98 + 1 + 1 from rfl,
    findEdgeLoopAux_succ]
  simp only [h1, h2]
  rw [if_neg]
  · rw [findEdgeLoopAux_succ]
    simp only [h3, h4]
    rw [if_pos]
    rw [Vec3.distanceTo_lt_iff (by rw [EPSILON]; norm_num)]
    simp only [Vec3.sub, Vec3.dot, EPSILON]
    norm_num
  · rw [Vec3.distanceTo_lt_iff (by rw [EPSILON]; norm_num)]
    simp only [Vec3.sub, Vec3.dot, EPSILON]
    norm_num

lemma distC7_planeZ0 :
    Vec3.distanceTo pC7 (planeZ0.projectPoint pC7) ≤ POINT_CLOUD_MAX_PROJECTION_DISTANCE := by
  rw [projectPoint_planeZ0,
    Vec3.distanceTo_le_iff (by rw [POINT_CLOUD_MAX_PROJECTION_DISTANCE]; norm_num)]
  simp only [pC7, Vec3.sub, Vec3.dot, POINT_CLOUD_MAX_PROJECTION_DISTANCE]
  norm_num

lemma distC7_planeCx1_gt :
    ¬ Vec3.distanceTo pC7 (planeCx1.projectPoint pC7) ≤ POINT_CLOUD_MAX_PROJECTION_DISTANCE := by
  rw [projectPoint_planeCx1, not_le,
    show POINT_CLOUD_MAX_PROJECTION_DISTANCE
      = (3 / 10 : ℝ) from rfl]
  have h := (Vec3.le_distanceTo_iff (by norm_num : (0:ℝ) ≤ 1) pC7 ⟨1, pC7.y, pC7.z⟩).mpr ?_
  · calc (3 / 10 : ℝ) < 1 := by norm_num
      _ ≤ _ := h
  · simp only [pC7, Vec3.sub, Vec3.dot]
    norm_num

lemma distC7_planeCx1_loose :
    Vec3.distanceTo pC7 (planeCx1.projectPoint pC7)
      ≤ POINT_CLOUD_MAX_PROJECTION_DISTANCE * 5 := by
  rw [projectPoint_planeCx1,
    Vec3.distanceTo_le_iff (by rw [POINT_CLOUD_MAX_PROJECTION_DISTANCE]; norm_num)]
  simp only [pC7, Vec3.sub, Vec3.dot, POINT_CLOUD_MAX_PROJECTION_DISTANCE]
  norm_num

/-- Claim C7 counterexample: the point `pC7` is accepted by `planeZ0`
(projection distance `1/5 ≤ 0.3`) and lies within the looser `5x`
threshold of `planeCx1` (distance `1 ≤ 1.5`), and the edge finder on that
pair even converges — yet the `app.js` sampler forms *no* edge candidate
for it, because `app.js` tests the second surface against the same
`POINT_CLOUD_MAX_PROJECTION_DISTANCE` it uses for the first, not a looser
one. -/
theorem C7_counterexample :
    Vec3.distanceTo pC7 (planeZ0.projectPoint pC7) ≤ POINT_CLOUD_MAX_PROJECTION_DISTANCE ∧
      Vec3.distanceTo pC7 (planeCx1.projectPoint pC7)
        ≤ POINT_CLOUD_MAX_PROJECTION_DISTANCE * 5 ∧
      AppJs.findEdgePoint pC7 planeZ0 planeCx1 = some ⟨1, 0, 0⟩ ∧
      (AppJs.projectPoints [pC7] [planeZ0, planeCx1]).edgePoints = [[], []] := by
  refine ⟨distC7_planeZ0, distC7_planeCx1_loose, edge_search_C7, ?_⟩
  simp only [AppJs.projectPoints, List.enum, List.enumFrom, List.map, List.flatMap]
  simp [distC7_planeZ0, distC7_planeCx1_gt]

/-- Claim C7 amended: in the `Part000` sampler the partner surface of an
edge candidate is accepted under the strictly looser threshold
`POINT_CLOUD_MAX_PROJECTION_DISTANCE * 5`, and every collected edge point
comes from such a pair: a sampled point within the tight threshold of the
first surface and within the loose threshold of a *different* second
surface, whose `findEdgePoint` run succeeded. (The `app.js` sampler uses
the same threshold for both surfaces — see the counterexample.) -/
theorem C7_amended :
    POINT_CLOUD_MAX_PROJECTION_DISTANCE < POINT_CLOUD_MAX_PROJECTION_DISTANCE * 5 ∧
      ∀ (points : List Vec3) (surfaces : List Surface) (i : ℕ) (es : List Vec3) (e : Vec3),
        (Part000.projectPoints points surfaces).edgePoints[i]? = some es →
        e ∈ es →
        ∃ p ∈ points, ∃ j si sj,
          surfaces[i]? = some si ∧ surfaces[j]? = some sj ∧ j ≠ i ∧
          Vec3.distanceTo p (si.projectPoint p) ≤ POINT_CLOUD_MAX_PROJECTION_DISTANCE ∧
          Vec3.distanceTo p (sj.projectPoint p) ≤ POINT_CLOUD_MAX_PROJECTION_DISTANCE * 5 ∧
          Part000.findEdgePoint p si sj = some e := by
  constructor
  · rw [POINT_CLOUD_MAX_PROJECTION_DISTANCE]
    norm_num
  · intro points surfaces i es e hes he
    simp only [Part000.projectPoints, List.getElem?_map, List.getElem?_enum] at hes
    cases hsi : surfaces[i]? with
    | none => rw [hsi] at hes; exact absurd hes (by simp)
    | some si =>
      rw [hsi] at hes
      simp only [Option.map_some'] at hes
      rw [← Option.some_inj.mp hes] at he
      rcases List.mem_flatMap.mp he with ⟨p, hp, hinner⟩
      by_cases haccept :
          Vec3.distanceTo p (si.projectPoint p) ≤ POINT_CLOUD_MAX_PROJECTION_DISTANCE
      · rw [if_pos haccept] at hinner
        rcases List.mem_flatMap.mp hinner with ⟨⟨j, sj⟩, hjs, hcand⟩
        have hj : surfaces[j]? = some sj := List.mem_enum_iff_getElem?.mp hjs
        by_cases hne : j ≠ i
        · rw [if_pos hne] at hcand
          by_cases hloose : Vec3.distanceTo p (sj.projectPoint p)
              ≤ POINT_CLOUD_MAX_PROJECTION_DISTANCE * 5
          · rw [if_pos hloose] at hcand
            have hfind : Part000.findEdgePoint p si sj = some e :=
              Option.mem_def.mp (Option.mem_toList.mp hcand)
            exact ⟨p, hp, j, si, sj, rfl, hj, hne, haccept, hloose, hfind⟩
          · rw [if_neg hloose] at hcand
            exact absurd hcand (List.not_mem_nil e)
        · rw [if_neg hne] at hcand
          exact absurd hcand (List.not_mem_nil e)
      · rw [if_neg haccept] at hinner
        exact absurd hinner (List.not_mem_nil e)

lemma findEdgePoint_twin_planeZ0 :
    Part000.findEdgePoint pC7 planeZ0 planeZ0 = some ⟨0, 0, 0⟩ := by
  have h1 : planeZ0.projectPoint pC7 = ⟨0, 0, 0⟩ := by
    rw [projectPoint_planeZ0]
    ext <;> simp [pC7]
  rw [Part000.findEdgePoint, show EDGE_SEARCH_MAX_ITERATIONS = 99 + 1 from rfl,
    lerpLoopAux_succ]
  simp only [h1]
  rw [if_pos]
  · rw [show Vec3.lerpVectors ⟨0, 0, 0⟩ ⟨0, 0, 0⟩ (1 / 2) = (⟨0, 0, 0⟩ : Vec3) by
      simp [Vec3.lerpVectors, Vec3.add, Vec3.sub, Vec3.multiplyScalar]]
  · rw [Vec3.distanceTo_lt_iff (by rw [EDGE_SEARCH_EPSILON, EPSILON]; norm_num)]
    simp only [Vec3.sub, Vec3.dot, EDGE_SEARCH_EPSILON, EPSILON]
    norm_num

lemma distC7_planeZ0_loose :
    Vec3.distanceTo pC7 (planeZ0.projectPoint pC7)
      ≤ POINT_CLOUD_MAX_PROJECTION_DISTANCE * 5 := by
  rw [projectPoint_planeZ0,
    Vec3.distanceTo_le_iff (by rw [POINT_CLOUD_MAX_PROJECTION_DISTANCE]; norm_num)]
  simp only [pC7, Vec3.sub, Vec3.dot, POINT_CLOUD_MAX_PROJECTION_DISTANCE]
  norm_num

/-- Witness for the amended claim C7 at a concrete input: the `Part000`
sampler on one point and two (duplicated) base planes produces the edge
point `(0,0,0)` in bucket 0, and the theorem recovers the accepted pair
behind it. -/
theorem C7_amended_witness :
    (Part000.projectPoints [pC7] [planeZ0, planeZ0]).edgePoints[0]? = some [⟨0, 0, 0⟩] ∧
      ∃ p ∈ [pC7], ∃ j si sj,
        ([planeZ0, planeZ0] : List Surface)[0]? = some si ∧
        ([planeZ0, planeZ0] : List Surface)[j]? = some sj ∧ j ≠ 0 ∧
        Vec3.distanceTo p (si.projectPoint p) ≤ POINT_CLOUD_MAX_PROJECTION_DISTANCE ∧
        Vec3.distanceTo p (sj.projectPoint p) ≤ POINT_CLOUD_MAX_PROJECTION_DISTANCE * 5 ∧
        Part000.findEdgePoint p si sj = some ⟨0, 0, 0⟩ := by
  have hes : (Part000.projectPoints [pC7] [planeZ0, planeZ0]).edgePoints[0]?
      = some [⟨0, 0, 0⟩] := by
    simp only [Part000.projectPoints, List.enum, List.enumFrom, List.map, List.flatMap]
    simp [distC7_planeZ0, distC7_planeZ0_loose, findEdgePoint_twin_planeZ0]
  exact ⟨hes,
    C7_amended.2 [pC7] [planeZ0, planeZ0] 0 [⟨0, 0, 0⟩] ⟨0, 0, 0⟩ hes (by simp)⟩
